import Mathlib

/-!
Verification of the Ind-inator client against its specification.

The repository ships the presentation client: the typed API layer
(frontend/src/lib/api.ts), the page component Index with its handlers, and the
screen components (GameScreen, ResultScreen, LandingScreen).  Those files are
embedded here as executable Lean definitions.  The backend inference engine
(Posterior Updater, Guess Policy) is not among the repository files, so the
pieces of it that the properties need are modelled from the specification text
and are marked as such in their doc comments.

Conventions of the embedding:
* JavaScript numbers are modelled as `Int` (ids, counters) and `ℚ`
  (probabilities, entropy).
* `fetch` and `JSON.parse` are platform functions, not repository code; a call
  of an API function takes a `FetchOutcome` describing what the platform
  returned: either a `ServerResponse` (with the raw body text and what
  `JSON.parse` yields on it, read at the expected type), or a rejection of the
  `fetch` promise itself.
* A thrown JavaScript `Error` is an `Except.error` carrying the message.
* Each API function returns the request it issues (method, path and body are
  determined by the `ApiRequest` constructor) together with its result.
-/

/-- Embeds the `question` object of `GameState` (api.ts line 4). -/
structure Question where
  id : Int
  text : String
deriving DecidableEq, Repr

/-- Embeds the candidate shape used by `topCandidates` and `guess`
(api.ts lines 8 and 9). -/
structure Candidate where
  name : String
  probability : ℚ
deriving DecidableEq, Repr

/-- Embeds `interface GameState` (api.ts lines 3 to 10), field for field. -/
structure GameState where
  question : Option Question
  questionIndex : Option Int
  questionNumber : Int
  entropy : ℚ
  topCandidates : List Candidate
  guess : Option Candidate
deriving DecidableEq, Repr

/-- The TypeScript type of a `GameState` field, named so field lists can be
compared without re-stating TypeScript syntax. -/
inductive FieldType where
  | questionObjectOrNull
  | numberOrNull
  | number
  | candidateArray
  | candidateOrNull
deriving DecidableEq, Repr

/-- The fields of `interface GameState` (api.ts lines 3 to 10), in declaration
order, with their TypeScript types. -/
def gameStateFields : List (String × FieldType) :=
  [("question", FieldType.questionObjectOrNull),
   ("questionIndex", FieldType.numberOrNull),
   ("questionNumber", FieldType.number),
   ("entropy", FieldType.number),
   ("topCandidates", FieldType.candidateArray),
   ("guess", FieldType.candidateOrNull)]

/-- Follows the words of the specification (section 6, response shape of
POST /start): the fields the response body consists of.  Written from the spec
for comparison with `gameStateFields`, which is written from the source. -/
def specResponseFields : List (String × FieldType) :=
  [("question", FieldType.questionObjectOrNull),
   ("questionNumber", FieldType.number),
   ("entropy", FieldType.number),
   ("topCandidates", FieldType.candidateArray),
   ("guess", FieldType.candidateOrNull)]

/-- Embeds `interface ApiError` (api.ts lines 12 to 14) as it can stand at run
time: `JSON.parse` does not validate the cast, so the `error` property may be
absent (`none`) even though the interface declares it. -/
structure ApiErrorBody where
  error : Option String
deriving DecidableEq, Repr

/-- Embeds the `{ok: boolean, message: string}` result of POST /guess-feedback
(api.ts line 133). -/
structure FeedbackResult where
  ok : Bool
  message : String
deriving DecidableEq, Repr

/-- Embeds the `mapping` object literal of `mapAnswerToBackend`
(api.ts lines 22 to 28). -/
def answerMapping : List (String × String) :=
  [("yes", "yes"),
   ("probably-yes", "probably_yes"),
   ("maybe", "unknown"),
   ("probably-no", "probably_no"),
   ("no", "no")]

/-- A JavaScript value as `mapping[answer] || "unknown"` can produce it: a
string, a member inherited from `Object.prototype` (a function, or the
prototype object itself for the accessor keys — truthy and not a string),
or nothing (`undefined` never survives the `||`). -/
inductive JsValue where
  | str (s : String)
  | inherited (name : String)
deriving DecidableEq, Repr

/-- The property keys every plain object literal inherits from
`Object.prototype` (platform semantics, not repository code): the standard
members plus the Annex B accessors. -/
def objectPrototypeKeys : List String :=
  ["constructor", "hasOwnProperty", "isPrototypeOf", "propertyIsEnumerable",
   "toLocaleString", "toString", "valueOf", "__proto__",
   "__defineGetter__", "__defineSetter__", "__lookupGetter__",
   "__lookupSetter__"]

/-- Embeds `mapAnswerToBackend` (api.ts lines 21 to 30) with JavaScript
property-access semantics: `mapping[answer]` finds an own property of the
literal first and otherwise walks the prototype chain, so a key of
`Object.prototype` yields the inherited member, which is truthy and not a
string, and `|| "unknown"` does not fire for it; only an access that yields
`undefined` (or an own value that were the empty string — none is) falls back
to "unknown". -/
def mapAnswerToBackend (answer : String) : JsValue :=
  match List.lookup answer answerMapping with
  | some v => if v = "" then JsValue.str "unknown" else JsValue.str v
  | none =>
      if answer ∈ objectPrototypeKeys then JsValue.inherited answer
      else JsValue.str "unknown"

/-- What the platform returned for one `fetch` that resolved: `ok`, `status`
and `statusText` of the `Response`; `text` is what `response.text()` yields;
`parsedError` is what `JSON.parse text` yields read as `ApiError` (`none` when
the text is not valid JSON); `parsedBody` the same read at the success type
`β`. -/
structure ServerResponse (β : Type) where
  ok : Bool
  status : Nat
  statusText : String
  text : String
  parsedError : Option ApiErrorBody
  parsedBody : Option β

/-- One `fetch` call as the client observes it: the promise resolved to a
response, or it rejected (network failure) with a platform exception, whose
`instanceof TypeError` test and message the constructor carries. -/
inductive FetchOutcome (β : Type) where
  | response (r : ServerResponse β)
  | networkFailure (isTypeError : Bool) (message : String)

/-- Models `String.prototype.includes` of JavaScript: `sub` occurs in `s`. -/
def stringIncludes (s sub : String) : Bool :=
  (List.range (s.length + 1)).any (fun i => sub.isPrefixOf (s.drop i))

/-- The requests the client can issue, one constructor per endpoint, carrying
the body values handed to `JSON.stringify`.  The `answer` field holds the
JavaScript value `mapAnswerToBackend` produced; when that value is an
inherited function `JSON.stringify` drops the field, so only a
`JsValue.str` answer yields a well-formed body. -/
inductive ApiRequest where
  | start
  | answer (questionId : Int) (answer : JsValue)
  | nextQuestion
  | guessFeedback (correct : Bool)
deriving DecidableEq, Repr

/-- Embeds `parseJsonResponse` (api.ts lines 35 to 47): empty text throws the
"Empty response" error, text that `JSON.parse` refuses throws the
"Invalid JSON response" error with the first 100 characters of the text,
otherwise the parsed value is returned. -/
def parseJsonResponse {β : Type} (status : Nat) (text : String)
    (parsed : Option β) : Except String β :=
  if text = "" then
    Except.error ("Empty response from server (status: " ++ toString status ++
      "). Is the backend server running?")
  else
    match parsed with
    | some v => Except.ok v
    | none => Except.error ("Invalid JSON response: " ++ text.take 100)

/-- Embeds the shared non-ok branch of the four API functions (api.ts lines
61 to 65, 97 to 102, 118 to 123, 142 to 147): parse the body as `ApiError`,
on parse failure substitute the constructed object, then throw
`error.error || fallback`.  The `if e = "" then fallback else e` is the
JavaScript `||` on a string. -/
def nonOkErrorMessage {β : Type} (fallback : String) (r : ServerResponse β) :
    String :=
  let errBody : ApiErrorBody :=
    match parseJsonResponse r.status r.text r.parsedError with
    | Except.ok body => body
    | Except.error _ =>
        { error := some ("Server error (" ++ toString r.status ++ "): " ++
          r.statusText) }
  match errBody.error with
  | some e => if e = "" then fallback else e
  | none => fallback

/-- Embeds `startGame` (api.ts lines 52 to 75).  The outer catch re-wraps only
a platform `TypeError` whose message contains "fetch"; the `Error`s thrown
inside the try block are not `TypeError`s and pass through unchanged. -/
def startGame (net : FetchOutcome GameState) :
    ApiRequest × Except String GameState :=
  let req := ApiRequest.start
  match net with
  | FetchOutcome.networkFailure isTypeError msg =>
      if isTypeError && stringIncludes msg "fetch" then
        (req, Except.error
          "Cannot connect to backend server. Make sure it's running on http://localhost:5000")
      else
        (req, Except.error msg)
  | FetchOutcome.response r =>
      if r.ok then
        (req, parseJsonResponse r.status r.text r.parsedBody)
      else
        (req, Except.error (nonOkErrorMessage "Failed to start game" r))

/-- Embeds `submitAnswer` (api.ts lines 80 to 105): the body sent is
`{questionId, answer: mapAnswerToBackend answer}`. -/
def submitAnswer (questionId : Int) (answer : String)
    (net : FetchOutcome GameState) : ApiRequest × Except String GameState :=
  let backendAnswer := mapAnswerToBackend answer
  let req := ApiRequest.answer questionId backendAnswer
  match net with
  | FetchOutcome.networkFailure _ msg => (req, Except.error msg)
  | FetchOutcome.response r =>
      if r.ok then
        (req, parseJsonResponse r.status r.text r.parsedBody)
      else
        (req, Except.error (nonOkErrorMessage "Failed to submit answer" r))

/-- Embeds `getNextQuestion` (api.ts lines 110 to 126). -/
def getNextQuestion (net : FetchOutcome GameState) :
    ApiRequest × Except String GameState :=
  let req := ApiRequest.nextQuestion
  match net with
  | FetchOutcome.networkFailure _ msg => (req, Except.error msg)
  | FetchOutcome.response r =>
      if r.ok then
        (req, parseJsonResponse r.status r.text r.parsedBody)
      else
        (req, Except.error (nonOkErrorMessage "Failed to get next question" r))

/-- Embeds `submitGuessFeedback` (api.ts lines 131 to 150): the body sent is
`{correct}`. -/
def submitGuessFeedback (correct : Bool) (net : FetchOutcome FeedbackResult) :
    ApiRequest × Except String FeedbackResult :=
  let req := ApiRequest.guessFeedback correct
  match net with
  | FetchOutcome.networkFailure _ msg => (req, Except.error msg)
  | FetchOutcome.response r =>
      if r.ok then
        (req, parseJsonResponse r.status r.text r.parsedBody)
      else
        (req, Except.error (nonOkErrorMessage "Failed to submit feedback" r))

/-!
The Index page component (the file holding Index, GameScreen and ResultScreen).
A React handler is embedded as a function from the component state and the
network environment of the calls it makes to the new component state, the list
of requests it issued in order, and the toast it raised (if any).  The
`finally` block always runs, so `isLoading` is `false` after a handler whose
guard passed; a handler whose guard fails returns before `setIsLoading(true)`
and changes nothing.
-/

/-- Embeds `GameStateType` (Index line 9). -/
inductive Screen where
  | landing
  | playing
  | result
deriving DecidableEq, Repr

/-- Embeds the argument of `setGuessedCharacter` (Index lines 15 and 72 to 75):
a name and an optional quote. -/
structure GuessedCharacter where
  name : String
  quote : Option String
deriving DecidableEq, Repr

/-- Embeds a call of `toast` (Index lines 27 to 31 and the like). -/
structure Toast where
  title : String
  description : String
  variant : String
deriving DecidableEq, Repr

/-- The state hooks of `Index` (lines 13 to 17). -/
structure IndexState where
  gameState : Screen
  currentState : Option GameState
  guessedCharacter : Option GuessedCharacter
  showAbout : Bool
  isLoading : Bool
deriving DecidableEq, Repr

/-- What one handler run leaves behind: the new hook state, the requests it
issued in order, and the toast it raised. -/
structure HandlerRun where
  state : IndexState
  requests : List ApiRequest
  toast : Option Toast
deriving DecidableEq, Repr

/-- Embeds `handleStartGame` (Index lines 19 to 35): no guard; on success the
state, the screen and the cleared guess are set; on failure only the toast is
raised.  The `error instanceof Error` test is always true in the embedding,
where every thrown value carries a message. -/
def handleStartGame (s : IndexState) (net : FetchOutcome GameState) :
    HandlerRun :=
  match startGame net with
  | (req, Except.ok st) =>
      { state := { s with currentState := some st, gameState := Screen.playing,
                          guessedCharacter := none, isLoading := false },
        requests := [req], toast := none }
  | (req, Except.error msg) =>
      { state := { s with isLoading := false },
        requests := [req],
        toast := some { title := "Error", description := msg,
                        variant := "destructive" } }

/-- Embeds `handleQuitGame` (Index lines 37 to 41). -/
def handleQuitGame (s : IndexState) : HandlerRun :=
  { state := { s with gameState := Screen.landing, currentState := none,
                      guessedCharacter := none },
    requests := [], toast := none }

/-- Embeds `handleAnswer` (Index lines 43 to 62): the guard
`if (!currentState?.question || isLoading) return;` and then one
`submitAnswer` call whose success replaces `currentState` and whose failure
raises a toast. -/
def handleAnswer (s : IndexState) (answer : String)
    (net : FetchOutcome GameState) : HandlerRun :=
  match s.currentState with
  | none => { state := s, requests := [], toast := none }
  | some cs =>
    match cs.question with
    | none => { state := s, requests := [], toast := none }
    | some q =>
      if s.isLoading then { state := s, requests := [], toast := none }
      else
        match submitAnswer q.id answer net with
        | (req, Except.ok newState) =>
            { state := { s with currentState := some newState,
                                isLoading := false },
              requests := [req], toast := none }
        | (req, Except.error msg) =>
            { state := { s with isLoading := false },
              requests := [req],
              toast := some { title := "Error", description := msg,
                              variant := "destructive" } }

/-- Embeds `handleGuessFeedback` (Index lines 64 to 92): the guard
`if (!currentState?.guess || isLoading) return;`; on `correct` the guessed
character and the result screen are set with no request issued; otherwise
`submitGuessFeedback(false)` and then `getNextQuestion()` run in order, and a
failure of either raises a toast and leaves the rest of the state alone. -/
def handleGuessFeedback (s : IndexState) (correct : Bool)
    (fbNet : FetchOutcome FeedbackResult) (nqNet : FetchOutcome GameState) :
    HandlerRun :=
  match s.currentState with
  | none => { state := s, requests := [], toast := none }
  | some cs =>
    match cs.guess with
    | none => { state := s, requests := [], toast := none }
    | some g =>
      if s.isLoading then { state := s, requests := [], toast := none }
      else if correct then
        { state := { s with
            guessedCharacter := some { name := g.name, quote := none },
            gameState := Screen.result, isLoading := false },
          requests := [], toast := none }
      else
        match submitGuessFeedback false fbNet with
        | (req1, Except.error msg) =>
            { state := { s with isLoading := false },
              requests := [req1],
              toast := some { title := "Error", description := msg,
                              variant := "destructive" } }
        | (req1, Except.ok _) =>
            match getNextQuestion nqNet with
            | (req2, Except.ok newState) =>
                { state := { s with currentState := some newState,
                                    isLoading := false },
                  requests := [req1, req2], toast := none }
            | (req2, Except.error msg) =>
                { state := { s with isLoading := false },
                  requests := [req1, req2],
                  toast := some { title := "Error", description := msg,
                                  variant := "destructive" } }

/-!
The GameScreen component.  Its render is embedded as a function to a view
value: which of the three mutually exclusive screens is shown and which
interactive controls it offers.
-/

/-- Embeds the `answers` array of GameScreen (lines of the `answers` constant):
the five button values with their labels. -/
def gameScreenAnswers : List (String × String) :=
  [("yes", "Yes"),
   ("probably-yes", "Probably"),
   ("maybe", "Maybe"),
   ("probably-no", "Probably Not"),
   ("no", "No")]

/-- What GameScreen renders: the guess screen (feedback buttons only), the
loading placeholder (no controls), or the question screen (one answer button
per element of `answerValues`).  `buttonsEnabled` is the negation of the
`disabled={isLoading}` attribute. -/
inductive GameScreenView where
  | guessView (name : String) (probability : ℚ) (buttonsEnabled : Bool)
  | loadingView
  | questionView (text : String) (questionNumber : Int) (entropy : ℚ)
      (answerValues : List String) (buttonsEnabled : Bool)
deriving DecidableEq, Repr

/-- Embeds the body of `GameScreen`: `if (guess) return` the guess screen;
`if (!question) return` the loading placeholder; otherwise the question screen
with one button per entry of the `answers` array. -/
def gameScreenRender (question : Option String) (questionNumber : Int)
    (entropy : ℚ) (guess : Option Candidate) (isLoading : Bool) :
    GameScreenView :=
  match guess with
  | some g => GameScreenView.guessView g.name g.probability (!isLoading)
  | none =>
    match question with
    | none => GameScreenView.loadingView
    | some q =>
        GameScreenView.questionView q questionNumber entropy
          (gameScreenAnswers.map Prod.fst) (!isLoading)

/-- Whether the view is the guess screen. -/
def GameScreenView.isGuessView : GameScreenView → Bool
  | GameScreenView.guessView _ _ _ => true
  | _ => false

/-- Whether the view is the question screen. -/
def GameScreenView.isQuestionView : GameScreenView → Bool
  | GameScreenView.questionView _ _ _ _ _ => true
  | _ => false

/-- The answer-button values the view offers; only the question screen has
any. -/
def GameScreenView.answerValues : GameScreenView → List String
  | GameScreenView.questionView _ _ _ vs _ => vs
  | _ => []

/-- The guess-feedback buttons the view offers, as the booleans
`onGuessFeedback` would be called with; only the guess screen has any. -/
def GameScreenView.feedbackValues : GameScreenView → List Bool
  | GameScreenView.guessView _ _ _ => [true, false]
  | _ => []

/-- Embeds the JSX of Index (lines 94 to 126): which screen the page shows.
The question text handed to GameScreen is
`currentState.question?.text || null`, so an empty text is passed as null. -/
def renderIndex (s : IndexState) : Option GameScreenView :=
  match s.gameState with
  | Screen.playing =>
    match s.currentState with
    | none => none
    | some cs =>
        some (gameScreenRender
          (match cs.question with
           | some q => if q.text = "" then none else some q.text
           | none => none)
          cs.questionNumber cs.entropy cs.guess s.isLoading)
  | _ => none

/-!
Spec-modelled backend pieces.  The inference engine is not among the
repository files; the two fragments the properties need are written from the
specification text.
-/

/-- Modelled from the spec: the Guess Policy state machine of section 4.4
(states `asking`, `proposing`, `confirmed`, `rejected-continuing`), with the
proposed top candidate carried where the spec attaches one.  The engine
implementing it is not among the repository files. -/
inductive PolicyState where
  | asking
  | proposing (top : Candidate)
  | confirmed (top : Candidate)
  | rejectedContinuing
deriving DecidableEq, Repr

/-- Whether the Guess Policy is in `proposing`. -/
def PolicyState.isProposing : PolicyState → Bool
  | PolicyState.proposing _ => true
  | _ => false

/-- Modelled from the spec: the `guess` field the response builder places in
the body (section 6: the response carries the proposed candidate while the
Guess Policy is in `proposing`, and null otherwise).  The response builder is
not among the repository files. -/
def responseGuess : PolicyState → Option Candidate
  | PolicyState.proposing top => some top
  | _ => none

/-- Modelled from the spec: the target agreement values of section 4.1
(yes 1.0, probably-yes 0.75, unknown 0.5, probably-no 0.25, no 0.0).  The
Answer Likelihood Model is not among the repository files. -/
def targetAgreement : String → ℚ
  | "yes" => 1
  | "probably_yes" => 3 / 4
  | "unknown" => 1 / 2
  | "probably_no" => 1 / 4
  | _ => 0

/-- Modelled from the spec: the likelihood weight of section 4.1,
`L = 1 - |t - p|` clamped to the positive floor 0.01.  The Answer Likelihood
Model is not among the repository files. -/
def likelihoodWeight (t p : ℚ) : ℚ :=
  max (1 - |t - p|) (1 / 100)

/-- Modelled from the spec: the Posterior Updater of section 4.2.  Each
posterior entry is multiplied by its likelihood weight and the vector is
normalized by the sum; when the unnormalized sum is zero the updater falls
back to re-mixing the previous posterior with a uniform floor and normalizing
that, never leaving the vector undefined.  The Posterior Updater is not among
the repository files. -/
def updatePosterior (posterior likelihood : List ℚ) : List ℚ :=
  let unnormalized := List.zipWith (fun p l => p * l) posterior likelihood
  let s := unnormalized.sum
  if s = 0 then
    let remixed := posterior.map (fun p => p + 1 / 100)
    remixed.map (fun p => p / remixed.sum)
  else
    unnormalized.map (fun p => p / s)

/-!
Helper lemmas about the API functions.
-/

/-- The request `submitAnswer` issues carries the mapped answer, whatever the
network does. -/
theorem submitAnswer_fst (questionId : Int) (answer : String)
    (net : FetchOutcome GameState) :
    (submitAnswer questionId answer net).1 =
      ApiRequest.answer questionId (mapAnswerToBackend answer) := by
  cases net with
  | networkFailure t m => rfl
  | response r =>
      by_cases h : r.ok <;> simp [submitAnswer, h]

/-- The request `submitGuessFeedback` issues carries the boolean it was called
with. -/
theorem submitGuessFeedback_fst (correct : Bool)
    (net : FetchOutcome FeedbackResult) :
    (submitGuessFeedback correct net).1 = ApiRequest.guessFeedback correct := by
  cases net with
  | networkFailure t m => rfl
  | response r =>
      by_cases h : r.ok <;> simp [submitGuessFeedback, h]

/-- The request `getNextQuestion` issues. -/
theorem getNextQuestion_fst (net : FetchOutcome GameState) :
    (getNextQuestion net).1 = ApiRequest.nextQuestion := by
  cases net with
  | networkFailure t m => rfl
  | response r =>
      by_cases h : r.ok <;> simp [getNextQuestion, h]

/-- The request `startGame` issues. -/
theorem startGame_fst (net : FetchOutcome GameState) :
    (startGame net).1 = ApiRequest.start := by
  cases net with
  | networkFailure t m =>
      by_cases h : t && stringIncludes m "fetch" <;> simp [startGame, h]
  | response r =>
      by_cases h : r.ok <;> simp [startGame, h]

/-!
The claims.
-/

/-- C2 counterexample: at the key "toString", which every object literal
inherits from `Object.prototype`, the access `mapping["toString"]` yields the
inherited truthy member, `|| "unknown"` does not fire, and the mapped value is
neither "unknown" nor any backend label, although "toString" lies outside the
five values of the GameScreen answer buttons. -/
theorem prototypeKey_escapes_mapping :
    mapAnswerToBackend "toString" = JsValue.inherited "toString"
    ∧ mapAnswerToBackend "toString" ∉
        (["yes", "probably_yes", "unknown", "probably_no", "no"].map JsValue.str)
    ∧ "toString" ∉ gameScreenAnswers.map Prod.fst := by
  refine ⟨by decide, by decide, by decide⟩

/-- C2 amended: the body `submitAnswer` sends to POST /answer carries
`questionId` and the mapped answer; for every string that is not a key
inherited from `Object.prototype` the mapped answer is one of the five
backend labels; "maybe" maps to "unknown"; every string outside both the five
GameScreen button values and the inherited prototype keys maps to "unknown";
and each inherited prototype key yields the inherited member instead of a
label. -/
theorem answerLabel_contract_outside_prototype :
    (∀ (questionId : Int) (answer : String) (net : FetchOutcome GameState),
        (submitAnswer questionId answer net).1 =
          ApiRequest.answer questionId (mapAnswerToBackend answer))
    ∧ (∀ answer : String, answer ∉ objectPrototypeKeys →
        mapAnswerToBackend answer ∈
          (["yes", "probably_yes", "unknown", "probably_no", "no"].map
            JsValue.str))
    ∧ mapAnswerToBackend "maybe" = JsValue.str "unknown"
    ∧ (∀ answer : String, answer ∉ gameScreenAnswers.map Prod.fst →
        answer ∉ objectPrototypeKeys →
        mapAnswerToBackend answer = JsValue.str "unknown")
    ∧ (∀ answer : String, answer ∈ objectPrototypeKeys →
        mapAnswerToBackend answer = JsValue.inherited answer) := by
  refine ⟨submitAnswer_fst, ?_, by decide, ?_, ?_⟩
  · intro a hproto
    unfold mapAnswerToBackend answerMapping
    simp only [List.lookup]
    by_cases h1 : a = "yes"
    · simp [beq_iff_eq, h1]
    by_cases h2 : a = "probably-yes"
    · simp [beq_eq_false_iff_ne.mpr h1, beq_iff_eq, h2]
    by_cases h3 : a = "maybe"
    · simp [beq_eq_false_iff_ne.mpr h1, beq_eq_false_iff_ne.mpr h2, beq_iff_eq, h3]
    by_cases h4 : a = "probably-no"
    · simp [beq_eq_false_iff_ne.mpr h1, beq_eq_false_iff_ne.mpr h2,
        beq_eq_false_iff_ne.mpr h3, beq_iff_eq, h4]
    by_cases h5 : a = "no"
    · simp [beq_eq_false_iff_ne.mpr h1, beq_eq_false_iff_ne.mpr h2,
        beq_eq_false_iff_ne.mpr h3, beq_eq_false_iff_ne.mpr h4, beq_iff_eq, h5]
    simp [beq_eq_false_iff_ne.mpr h1, beq_eq_false_iff_ne.mpr h2,
      beq_eq_false_iff_ne.mpr h3, beq_eq_false_iff_ne.mpr h4,
      beq_eq_false_iff_ne.mpr h5, hproto]
  · intro a h hproto
    simp only [gameScreenAnswers, List.map, List.mem_cons, List.not_mem_nil,
      or_false, not_or] at h
    obtain ⟨h1, h2, h3, h4, h5⟩ := h
    unfold mapAnswerToBackend answerMapping
    simp only [List.lookup]
    simp [beq_eq_false_iff_ne.mpr h1, beq_eq_false_iff_ne.mpr h2,
      beq_eq_false_iff_ne.mpr h3, beq_eq_false_iff_ne.mpr h4,
      beq_eq_false_iff_ne.mpr h5, hproto]
  · intro a hproto
    have hown : List.lookup a answerMapping = none := by
      simp only [objectPrototypeKeys, List.mem_cons, List.not_mem_nil,
        or_false] at hproto
      rcases hproto with rfl | rfl | rfl | rfl | rfl | rfl | rfl | rfl |
        rfl | rfl | rfl | rfl <;> decide
    unfold mapAnswerToBackend
    rw [hown]
    simp [hproto]

/-- C4 counterexample: the typed contract `GameState` of api.ts does not have
exactly the fields of the response shape the specification gives for
POST /start: it declares a sixth field `questionIndex : number | null` that
the specification's shape lacks. -/
theorem gameStateFields_ne_spec_shape :
    gameStateFields.map Prod.fst ≠ specResponseFields.map Prod.fst
    ∧ ("questionIndex", FieldType.numberOrNull) ∈ gameStateFields
    ∧ ("questionIndex", FieldType.numberOrNull) ∉ specResponseFields := by
  refine ⟨by decide, by decide, by decide⟩

/-- C4 amended: the typed contract `GameState` consists of the five fields of
the specification's response shape, with their spec types and in the spec's
order, plus one extra field `questionIndex : number | null` in second
position. -/
theorem gameStateFields_spec_plus_questionIndex :
    gameStateFields.filter (fun f => f.1 != "questionIndex") = specResponseFields
    ∧ ("questionIndex", FieldType.numberOrNull) ∈ gameStateFields
    ∧ gameStateFields.map Prod.fst =
        ["question", "questionIndex", "questionNumber", "entropy",
         "topCandidates", "guess"] := by
  refine ⟨by decide, by decide, by decide⟩

/-- C3: the `guess` field of a response is non-null exactly when the Guess
Policy is in `proposing` (the response builder is modelled from the spec, see
`responseGuess`); and in the client, GameScreen shows the guess-confirmation
interaction exactly when the `guess` it is handed is non-null, offering the
two feedback buttons then and the answer buttons never. -/
theorem guess_nonNull_iff_proposing :
    (∀ st : PolicyState, (responseGuess st).isSome = st.isProposing)
    ∧ (∀ (q : Option String) (n : Int) (e : ℚ) (guess : Option Candidate)
        (l : Bool),
        (gameScreenRender q n e guess l).isGuessView = guess.isSome)
    ∧ (∀ (q : Option String) (n : Int) (e : ℚ) (guess : Option Candidate)
        (l : Bool),
        (gameScreenRender q n e guess l).feedbackValues =
          if guess.isSome then [true, false] else [])
    ∧ (∀ (q : Option String) (n : Int) (e : ℚ) (guess : Option Candidate)
        (l : Bool),
        (gameScreenRender q n e guess l).answerValues =
          if guess.isSome then []
          else if q.isSome then gameScreenAnswers.map Prod.fst else []) := by
  refine ⟨?_, ?_, ?_, ?_⟩
  · intro st
    cases st <;> rfl
  · intro q n e guess l
    cases guess <;> cases q <;> rfl
  · intro q n e guess l
    cases guess <;> cases q <;> rfl
  · intro q n e guess l
    cases guess <;> cases q <;> rfl

/-- C10: while a guess is pending (`guess` non-null) GameScreen renders
exactly the guess screen, whose only controls are the two feedback buttons
and which offers no answer button, so no answer can be submitted; and the
question screen is rendered exactly when `guess` is null and a question text
is present. -/
theorem pendingGuess_renders_guessScreen_only :
    (∀ (q : Option String) (n : Int) (e : ℚ) (g : Candidate) (l : Bool),
        gameScreenRender q n e (some g) l =
          GameScreenView.guessView g.name g.probability (!l))
    ∧ (∀ (q : Option String) (n : Int) (e : ℚ) (g : Candidate) (l : Bool),
        (gameScreenRender q n e (some g) l).answerValues = [])
    ∧ (∀ (q : Option String) (n : Int) (e : ℚ) (guess : Option Candidate)
        (l : Bool),
        (gameScreenRender q n e guess l).isQuestionView =
          (guess.isNone && q.isSome)) := by
  refine ⟨?_, ?_, ?_⟩
  · intro q n e g l
    cases q <;> rfl
  · intro q n e g l
    cases q <;> rfl
  · intro q n e guess l
    cases guess <;> cases q <;> rfl

/-- A response state with a guess pending: what the client holds right after
the backend proposed a candidate. -/
def pendingGuessState : GameState :=
  { question := none, questionIndex := none, questionNumber := 12,
    entropy := 1 / 2, topCandidates := [{ name := "Perry", probability := 9 / 10 }],
    guess := some { name := "Perry", probability := 9 / 10 } }

/-- The Index hook state while that guess awaits feedback. -/
def pendingGuessIndexState : IndexState :=
  { gameState := Screen.playing, currentState := some pendingGuessState,
    guessedCharacter := none, showAbout := false, isLoading := false }

/-- C1: evaluation of `handleGuessFeedback` at a confirmation (`correct =
true`) with a guess pending.  The handler moves the page to the result screen
(the session is treated as finished) while issuing no request at all: in
particular no POST /guess-feedback with body correct = true is ever sent,
whatever the network would have answered. -/
theorem confirmGuess_sends_no_request :
    ∀ (fbNet : FetchOutcome FeedbackResult) (nqNet : FetchOutcome GameState),
      (handleGuessFeedback pendingGuessIndexState true fbNet nqNet).requests = []
      ∧ (handleGuessFeedback pendingGuessIndexState true fbNet nqNet).state.gameState =
          Screen.result
      ∧ (handleGuessFeedback pendingGuessIndexState true fbNet nqNet).state.guessedCharacter =
          some { name := "Perry", quote := none } := by
  intro fbNet nqNet
  refine ⟨rfl, rfl, rfl⟩

/-- C5: on negative guess feedback with a guess pending, the handler issues
POST /guess-feedback with body correct = false first and POST /next-question
second, and adopts the next-question response as the new displayed state, so
asking resumes with the fresh question. -/
theorem rejectGuess_feedback_then_next :
    ∀ (s : IndexState) (cs : GameState) (g : Candidate)
      (fbNet : FetchOutcome FeedbackResult) (nqNet : FetchOutcome GameState)
      (fbResult : FeedbackResult) (newState : GameState),
      s.currentState = some cs → cs.guess = some g → s.isLoading = false →
      (submitGuessFeedback false fbNet).2 = Except.ok fbResult →
      (getNextQuestion nqNet).2 = Except.ok newState →
      handleGuessFeedback s false fbNet nqNet =
        { state := { s with currentState := some newState, isLoading := false },
          requests := [ApiRequest.guessFeedback false, ApiRequest.nextQuestion],
          toast := none } := by
  intro s cs g fbNet nqNet fbResult newState hcs hg hl hfb hnq
  rcases h1 : submitGuessFeedback false fbNet with ⟨req1, res1⟩
  rcases h2 : getNextQuestion nqNet with ⟨req2, res2⟩
  rw [h1] at hfb
  rw [h2] at hnq
  have hreq1 := submitGuessFeedback_fst false fbNet
  rw [h1] at hreq1
  have hreq2 := getNextQuestion_fst nqNet
  rw [h2] at hreq2
  have hres1 : res1 = Except.ok fbResult := hfb
  have hres2 : res2 = Except.ok newState := hnq
  have hq1 : req1 = ApiRequest.guessFeedback false := hreq1
  have hq2 : req2 = ApiRequest.nextQuestion := hreq2
  subst hres1
  subst hres2
  subst hq1
  subst hq2
  simp [handleGuessFeedback, hcs, hg, hl, h1, h2]

/-- A successful POST /guess-feedback response. -/
def suppressedFeedbackResponse : ServerResponse FeedbackResult :=
  { ok := true, status := 200, statusText := "OK",
    text := "\x7b\"ok\":true,\"message\":\"candidate suppressed\"\x7d",
    parsedError := some { error := none },
    parsedBody := some { ok := true, message := "candidate suppressed" } }

/-- The state a successful POST /next-question response carries: a fresh
question, no guess. -/
def resumeQuestionState : GameState :=
  { question := some { id := 4, text := "Can they fly?" },
    questionIndex := some 4, questionNumber := 13, entropy := 3 / 2,
    topCandidates := [{ name := "Perry", probability := 1 / 100 }],
    guess := none }

/-- A successful POST /next-question response carrying
`resumeQuestionState`. -/
def resumeQuestionResponse : ServerResponse GameState :=
  { ok := true, status := 200, statusText := "OK",
    text := "\x7b\"question\":\x7b\"id\":4,\"text\":\"Can they fly?\"\x7d,\"questionIndex\":4,\"questionNumber\":13,\"entropy\":1.5,\"topCandidates\":[\x7b\"name\":\"Perry\",\"probability\":0.01\x7d],\"guess\":null\x7d",
    parsedError := some { error := none },
    parsedBody := some resumeQuestionState }

/-- C5 witness: the reject flow evaluated at a concrete pending guess and two
concrete successful responses. -/
theorem rejectGuess_feedback_then_next_witness :
    handleGuessFeedback pendingGuessIndexState false
        (FetchOutcome.response suppressedFeedbackResponse)
        (FetchOutcome.response resumeQuestionResponse) =
      { state := { pendingGuessIndexState with
                   currentState := some resumeQuestionState,
                   isLoading := false },
        requests := [ApiRequest.guessFeedback false, ApiRequest.nextQuestion],
        toast := none } :=
  rejectGuess_feedback_then_next pendingGuessIndexState pendingGuessState
    { name := "Perry", probability := 9 / 10 }
    (FetchOutcome.response suppressedFeedbackResponse)
    (FetchOutcome.response resumeQuestionResponse)
    { ok := true, message := "candidate suppressed" } resumeQuestionState
    rfl rfl rfl rfl rfl

/-- C8: `handleAnswer` runs only with a question pending and no request in
flight, `handleGuessFeedback` only with a guess pending and no request in
flight; when the guard fails the handler returns at once, issuing no request
and changing nothing; and conversely a run that issued any request had the
precondition. -/
theorem handler_guards :
    (∀ (s : IndexState) (answer : String) (net : FetchOutcome GameState),
        ((s.currentState.bind GameState.question).isNone = true ∨
          s.isLoading = true) →
        handleAnswer s answer net =
          { state := s, requests := [], toast := none })
    ∧ (∀ (s : IndexState) (correct : Bool)
        (fbNet : FetchOutcome FeedbackResult) (nqNet : FetchOutcome GameState),
        ((s.currentState.bind GameState.guess).isNone = true ∨
          s.isLoading = true) →
        handleGuessFeedback s correct fbNet nqNet =
          { state := s, requests := [], toast := none })
    ∧ (∀ (s : IndexState) (answer : String) (net : FetchOutcome GameState),
        (handleAnswer s answer net).requests ≠ [] →
        (s.currentState.bind GameState.question).isSome = true ∧
          s.isLoading = false)
    ∧ (∀ (s : IndexState) (correct : Bool)
        (fbNet : FetchOutcome FeedbackResult) (nqNet : FetchOutcome GameState),
        (handleGuessFeedback s correct fbNet nqNet).requests ≠ [] →
        (s.currentState.bind GameState.guess).isSome = true ∧
          s.isLoading = false) := by
  refine ⟨?_, ?_, ?_, ?_⟩
  · intro s answer net h
    rcases hc : s.currentState with _ | cs
    · simp [handleAnswer, hc]
    rcases hq : cs.question with _ | q
    · simp [handleAnswer, hc, hq]
    rcases h with h | h
    · rw [hc, Option.some_bind, hq] at h
      simp at h
    · simp [handleAnswer, hc, hq, h]
  · intro s correct fbNet nqNet h
    rcases hc : s.currentState with _ | cs
    · simp [handleGuessFeedback, hc]
    rcases hg : cs.guess with _ | g
    · simp [handleGuessFeedback, hc, hg]
    rcases h with h | h
    · rw [hc, Option.some_bind, hg] at h
      simp at h
    · simp [handleGuessFeedback, hc, hg, h]
  · intro s answer net h
    rcases hc : s.currentState with _ | cs
    · exact absurd (by simp [handleAnswer, hc]) h
    rcases hq : cs.question with _ | q
    · exact absurd (by simp [handleAnswer, hc, hq]) h
    by_cases hl : s.isLoading
    · exact absurd (by simp [handleAnswer, hc, hq, hl]) h
    refine ⟨?_, by simpa using hl⟩
    rw [Option.some_bind, hq]
    rfl
  · intro s correct fbNet nqNet h
    rcases hc : s.currentState with _ | cs
    · exact absurd (by simp [handleGuessFeedback, hc]) h
    rcases hg : cs.guess with _ | g
    · exact absurd (by simp [handleGuessFeedback, hc, hg]) h
    by_cases hl : s.isLoading
    · exact absurd (by simp [handleGuessFeedback, hc, hg, hl]) h
    refine ⟨?_, by simpa using hl⟩
    rw [Option.some_bind, hg]
    rfl

/-- C9: when an API call made by a handler throws (network failure, non-2xx
status, empty or malformed body), the handler changes nothing but `isLoading`:
`currentState`, `gameState` and `guessedCharacter` keep their previous values
and the failure is reported only through a destructive toast carrying the
thrown message.  One part per failure point of the three handlers. -/
theorem apiError_leaves_displayed_state :
    (∀ (s : IndexState) (net : FetchOutcome GameState) (msg : String),
        (startGame net).2 = Except.error msg →
        handleStartGame s net =
          { state := { s with isLoading := false },
            requests := [ApiRequest.start],
            toast := some { title := "Error", description := msg,
                            variant := "destructive" } })
    ∧ (∀ (s : IndexState) (cs : GameState) (q : Question) (answer : String)
        (net : FetchOutcome GameState) (msg : String),
        s.currentState = some cs → cs.question = some q →
        s.isLoading = false →
        (submitAnswer q.id answer net).2 = Except.error msg →
        handleAnswer s answer net =
          { state := { s with isLoading := false },
            requests := [ApiRequest.answer q.id (mapAnswerToBackend answer)],
            toast := some { title := "Error", description := msg,
                            variant := "destructive" } })
    ∧ (∀ (s : IndexState) (cs : GameState) (g : Candidate)
        (fbNet : FetchOutcome FeedbackResult) (nqNet : FetchOutcome GameState)
        (msg : String),
        s.currentState = some cs → cs.guess = some g →
        s.isLoading = false →
        (submitGuessFeedback false fbNet).2 = Except.error msg →
        handleGuessFeedback s false fbNet nqNet =
          { state := { s with isLoading := false },
            requests := [ApiRequest.guessFeedback false],
            toast := some { title := "Error", description := msg,
                            variant := "destructive" } })
    ∧ (∀ (s : IndexState) (cs : GameState) (g : Candidate)
        (fbNet : FetchOutcome FeedbackResult) (nqNet : FetchOutcome GameState)
        (fbResult : FeedbackResult) (msg : String),
        s.currentState = some cs → cs.guess = some g →
        s.isLoading = false →
        (submitGuessFeedback false fbNet).2 = Except.ok fbResult →
        (getNextQuestion nqNet).2 = Except.error msg →
        handleGuessFeedback s false fbNet nqNet =
          { state := { s with isLoading := false },
            requests := [ApiRequest.guessFeedback false, ApiRequest.nextQuestion],
            toast := some { title := "Error", description := msg,
                            variant := "destructive" } }) := by
  refine ⟨?_, ?_, ?_, ?_⟩
  · intro s net msg herr
    rcases h1 : startGame net with ⟨req, res⟩
    rw [h1] at herr
    have hreq := startGame_fst net
    rw [h1] at hreq
    have hres : res = Except.error msg := herr
    have hq : req = ApiRequest.start := hreq
    subst hres
    subst hq
    simp [handleStartGame, h1]
  · intro s cs q answer net msg hcs hq hl herr
    rcases h1 : submitAnswer q.id answer net with ⟨req, res⟩
    rw [h1] at herr
    have hreq := submitAnswer_fst q.id answer net
    rw [h1] at hreq
    have hres : res = Except.error msg := herr
    have hqe : req = ApiRequest.answer q.id (mapAnswerToBackend answer) := hreq
    subst hres
    subst hqe
    simp [handleAnswer, hcs, hq, hl, h1]
  · intro s cs g fbNet nqNet msg hcs hg hl herr
    rcases h1 : submitGuessFeedback false fbNet with ⟨req, res⟩
    rw [h1] at herr
    have hreq := submitGuessFeedback_fst false fbNet
    rw [h1] at hreq
    have hres : res = Except.error msg := herr
    have hqe : req = ApiRequest.guessFeedback false := hreq
    subst hres
    subst hqe
    simp [handleGuessFeedback, hcs, hg, hl, h1]
  · intro s cs g fbNet nqNet fbResult msg hcs hg hl hok herr
    rcases h1 : submitGuessFeedback false fbNet with ⟨req1, res1⟩
    rcases h2 : getNextQuestion nqNet with ⟨req2, res2⟩
    rw [h1] at hok
    rw [h2] at herr
    have hreq1 := submitGuessFeedback_fst false fbNet
    rw [h1] at hreq1
    have hreq2 := getNextQuestion_fst nqNet
    rw [h2] at hreq2
    have hres1 : res1 = Except.ok fbResult := hok
    have hres2 : res2 = Except.error msg := herr
    have hq1 : req1 = ApiRequest.guessFeedback false := hreq1
    have hq2 : req2 = ApiRequest.nextQuestion := hreq2
    subst hres1
    subst hres2
    subst hq1
    subst hq2
    simp [handleGuessFeedback, hcs, hg, hl, h1, h2]

/-- A non-2xx response whose valid JSON body carries the error field with the
empty string as its value. -/
def emptyErrorFieldResponse : ServerResponse GameState :=
  { ok := false, status := 400, statusText := "Bad Request",
    text := "\x7b\"error\":\"\"\x7d",
    parsedError := some { error := some "" },
    parsedBody := none }

/-- C6 counterexample: on a non-2xx response whose body is the valid JSON
object with error field present and equal to the empty string, `submitAnswer`
throws the per-endpoint fallback message and not the error field of the body:
`error.error || fallback` discards a present-but-empty field. -/
theorem emptyErrorField_gets_fallback :
    (submitAnswer 3 "yes" (FetchOutcome.response emptyErrorFieldResponse)).2 =
      Except.error "Failed to submit answer"
    ∧ emptyErrorFieldResponse.ok = false
    ∧ emptyErrorFieldResponse.parsedError = some { error := some "" }
    ∧ ("Failed to submit answer" : String) ≠ "" := by
  refine ⟨rfl, rfl, rfl, by decide⟩

/-- Modelled from the spec (section 6): an error response of the backend uses
the valid JSON body with the `error` field holding the string `msg`, under a
non-2xx status, so `ok` is false.  The backend producing such responses is
not among the repository files. -/
def SpecErrorResponse {β : Type} (r : ServerResponse β) (msg : String) : Prop :=
  r.ok = false ∧ r.text ≠ "" ∧ r.parsedError = some { error := some msg }

/-- C6 amended: error responses of the backend carry body with an `error`
string and a non-2xx status (modelled from the spec, `SpecErrorResponse`);
every client API function throws on every non-2xx response (none ever
resolves then), with the thrown message the body's error field when that
field is present and non-empty, the per-endpoint fallback when the body
parses but the error field is missing or empty, and the constructed
"Server error (status): statusText" when the body is empty or not valid
JSON; on a spec-shaped error response the thrown message is therefore the
body's error field, or the per-endpoint fallback for the empty field; and a
response whose body is empty or unparsable makes every function throw even
under a 2xx status, with the "Empty response" or "Invalid JSON response"
message. -/
theorem errorResponse_contract :
    (∀ (r : ServerResponse GameState) (msg : String),
        SpecErrorResponse r msg →
        (startGame (FetchOutcome.response r)).2 =
          Except.error (if msg = "" then "Failed to start game" else msg))
    ∧ (∀ (questionId : Int) (answer : String) (r : ServerResponse GameState)
        (msg : String), SpecErrorResponse r msg →
        (submitAnswer questionId answer (FetchOutcome.response r)).2 =
          Except.error (if msg = "" then "Failed to submit answer" else msg))
    ∧ (∀ (r : ServerResponse GameState) (msg : String),
        SpecErrorResponse r msg →
        (getNextQuestion (FetchOutcome.response r)).2 =
          Except.error (if msg = "" then "Failed to get next question" else msg))
    ∧ (∀ (correct : Bool) (r : ServerResponse FeedbackResult) (msg : String),
        SpecErrorResponse r msg →
        (submitGuessFeedback correct (FetchOutcome.response r)).2 =
          Except.error (if msg = "" then "Failed to submit feedback" else msg))
    ∧ (∀ r : ServerResponse GameState, r.ok = true →
        (r.text = "" ∨ r.parsedBody = none) →
        (startGame (FetchOutcome.response r)).2 =
          Except.error (if r.text = "" then
            "Empty response from server (status: " ++ toString r.status ++
              "). Is the backend server running?"
          else "Invalid JSON response: " ++ r.text.take 100))
    ∧ (∀ (questionId : Int) (answer : String) (r : ServerResponse GameState),
        r.ok = true → (r.text = "" ∨ r.parsedBody = none) →
        (submitAnswer questionId answer (FetchOutcome.response r)).2 =
          Except.error (if r.text = "" then
            "Empty response from server (status: " ++ toString r.status ++
              "). Is the backend server running?"
          else "Invalid JSON response: " ++ r.text.take 100))
    ∧ (∀ r : ServerResponse GameState, r.ok = true →
        (r.text = "" ∨ r.parsedBody = none) →
        (getNextQuestion (FetchOutcome.response r)).2 =
          Except.error (if r.text = "" then
            "Empty response from server (status: " ++ toString r.status ++
              "). Is the backend server running?"
          else "Invalid JSON response: " ++ r.text.take 100))
    ∧ (∀ (correct : Bool) (r : ServerResponse FeedbackResult), r.ok = true →
        (r.text = "" ∨ r.parsedBody = none) →
        (submitGuessFeedback correct (FetchOutcome.response r)).2 =
          Except.error (if r.text = "" then
            "Empty response from server (status: " ++ toString r.status ++
              "). Is the backend server running?"
          else "Invalid JSON response: " ++ r.text.take 100))
    ∧
    (∀ r : ServerResponse GameState, r.ok = false →
        (startGame (FetchOutcome.response r)).2 =
          Except.error (nonOkErrorMessage "Failed to start game" r))
    ∧ (∀ (questionId : Int) (answer : String) (r : ServerResponse GameState),
        r.ok = false →
        (submitAnswer questionId answer (FetchOutcome.response r)).2 =
          Except.error (nonOkErrorMessage "Failed to submit answer" r))
    ∧ (∀ r : ServerResponse GameState, r.ok = false →
        (getNextQuestion (FetchOutcome.response r)).2 =
          Except.error (nonOkErrorMessage "Failed to get next question" r))
    ∧ (∀ (correct : Bool) (r : ServerResponse FeedbackResult), r.ok = false →
        (submitGuessFeedback correct (FetchOutcome.response r)).2 =
          Except.error (nonOkErrorMessage "Failed to submit feedback" r))
    ∧ (∀ (β : Type) (fallback : String) (r : ServerResponse β) (e : String),
        r.text ≠ "" → r.parsedError = some { error := some e } → e ≠ "" →
        nonOkErrorMessage fallback r = e)
    ∧ (∀ (β : Type) (fallback : String) (r : ServerResponse β),
        r.text ≠ "" →
        (r.parsedError = some { error := none } ∨
          r.parsedError = some { error := some "" }) →
        nonOkErrorMessage fallback r = fallback)
    ∧ (∀ (β : Type) (fallback : String) (r : ServerResponse β),
        (r.text = "" ∨ r.parsedError = none) →
        nonOkErrorMessage fallback r =
          "Server error (" ++ toString r.status ++ "): " ++ r.statusText) := by
  refine ⟨?_, ?_, ?_, ?_, ?_, ?_, ?_, ?_, ?_, ?_, ?_, ?_, ?_, ?_, ?_⟩
  · intro r msg hs
    obtain ⟨hok, htext, hparsed⟩ := hs
    by_cases hmsg : msg = "" <;>
      simp [startGame, hok, nonOkErrorMessage, parseJsonResponse, htext,
        hparsed, hmsg]
  · intro questionId answer r msg hs
    obtain ⟨hok, htext, hparsed⟩ := hs
    by_cases hmsg : msg = "" <;>
      simp [submitAnswer, hok, nonOkErrorMessage, parseJsonResponse, htext,
        hparsed, hmsg]
  · intro r msg hs
    obtain ⟨hok, htext, hparsed⟩ := hs
    by_cases hmsg : msg = "" <;>
      simp [getNextQuestion, hok, nonOkErrorMessage, parseJsonResponse, htext,
        hparsed, hmsg]
  · intro correct r msg hs
    obtain ⟨hok, htext, hparsed⟩ := hs
    by_cases hmsg : msg = "" <;>
      simp [submitGuessFeedback, hok, nonOkErrorMessage, parseJsonResponse,
        htext, hparsed, hmsg]
  · intro r hok h
    by_cases htext : r.text = ""
    · simp [startGame, hok, parseJsonResponse, htext]
    · have hbody : r.parsedBody = none := by
        rcases h with h | h
        · exact absurd h htext
        · exact h
      simp [startGame, hok, parseJsonResponse, htext, hbody]
  · intro questionId answer r hok h
    by_cases htext : r.text = ""
    · simp [submitAnswer, hok, parseJsonResponse, htext]
    · have hbody : r.parsedBody = none := by
        rcases h with h | h
        · exact absurd h htext
        · exact h
      simp [submitAnswer, hok, parseJsonResponse, htext, hbody]
  · intro r hok h
    by_cases htext : r.text = ""
    · simp [getNextQuestion, hok, parseJsonResponse, htext]
    · have hbody : r.parsedBody = none := by
        rcases h with h | h
        · exact absurd h htext
        · exact h
      simp [getNextQuestion, hok, parseJsonResponse, htext, hbody]
  · intro correct r hok h
    by_cases htext : r.text = ""
    · simp [submitGuessFeedback, hok, parseJsonResponse, htext]
    · have hbody : r.parsedBody = none := by
        rcases h with h | h
        · exact absurd h htext
        · exact h
      simp [submitGuessFeedback, hok, parseJsonResponse, htext, hbody]
  · intro r h
    simp [startGame, h]
  · intro questionId answer r h
    simp [submitAnswer, h]
  · intro r h
    simp [getNextQuestion, h]
  · intro correct r h
    simp [submitGuessFeedback, h]
  · intro β fallback r e htext hparsed hne
    simp [nonOkErrorMessage, parseJsonResponse, htext, hparsed, hne]
  · intro β fallback r htext hparsed
    rcases hparsed with hparsed | hparsed <;>
      simp [nonOkErrorMessage, parseJsonResponse, htext, hparsed]
  · intro β fallback r h
    have hne : ("Server error (" ++ toString r.status ++ "): " ++
        r.statusText) ≠ "" := by
      intro habs
      have := congrArg String.length habs
      simp [String.length_append] at this
      exact absurd this.1.1.1 (by decide)
    rcases h with h | h
    · simp [nonOkErrorMessage, parseJsonResponse, h, hne]
    · by_cases htext : r.text = ""
      · simp [nonOkErrorMessage, parseJsonResponse, htext, hne]
      · simp [nonOkErrorMessage, parseJsonResponse, htext, h, hne]

/-- Dividing every entry by a constant divides the sum. -/
theorem sum_map_div (l : List ℚ) (c : ℚ) :
    (l.map (fun p => p / c)).sum = l.sum / c := by
  induction l with
  | nil => simp
  | cons x xs ih => simp [ih, add_div]

/-- Adding a constant to every entry adds length-many copies to the sum. -/
theorem sum_map_add_const (l : List ℚ) (c : ℚ) :
    (l.map (fun p => p + c)).sum = l.sum + l.length * c := by
  induction l with
  | nil => simp
  | cons x xs ih =>
      simp only [List.map_cons, List.sum_cons, ih, List.length_cons]
      push_cast
      ring

/-- Entrywise products of non-negative lists are non-negative. -/
theorem zipWith_mul_nonneg (xs ys : List ℚ) (hx : ∀ x ∈ xs, 0 ≤ x)
    (hy : ∀ y ∈ ys, 0 ≤ y) :
    ∀ z ∈ List.zipWith (fun p l => p * l) xs ys, 0 ≤ z := by
  induction xs generalizing ys with
  | nil => simp
  | cons x xs ih =>
      cases ys with
      | nil => simp
      | cons y ys =>
          intro z hz
          rcases List.mem_cons.mp hz with rfl | hz
          · exact mul_nonneg (hx x (by simp)) (hy y (by simp))
          · exact ih ys (fun a ha => hx a (List.mem_cons_of_mem x ha))
              (fun a ha => hy a (List.mem_cons_of_mem y ha)) z hz

/-- C7: after every posterior update the vector is non-negative and sums to
exactly 1 — the normalization invariant, covering both the normal branch and
the uniform-floor fallback of the zero-sum degenerate case.  The Posterior
Updater is modelled from the spec (`updatePosterior`). -/
theorem posterior_update_normalized :
    ∀ (posterior likelihood : List ℚ),
      (∀ p ∈ posterior, 0 ≤ p) → posterior.sum = 1 →
      (∀ l ∈ likelihood, 0 ≤ l) →
      (∀ p ∈ updatePosterior posterior likelihood, 0 ≤ p) ∧
        (updatePosterior posterior likelihood).sum = 1 := by
  intro π L hπ hsum hL
  simp only [updatePosterior]
  by_cases hs : (List.zipWith (fun p l => p * l) π L).sum = 0
  · rw [if_pos hs]
    have hremsum : (π.map (fun p => p + 1 / 100)).sum =
        1 + (π.length : ℚ) * (1 / 100) := by
      rw [sum_map_add_const, hsum]
    have hpos : (0 : ℚ) < (π.map (fun p => p + 1 / 100)).sum := by
      rw [hremsum]
      positivity
    constructor
    · intro p hp
      rcases List.mem_map.mp hp with ⟨q, hq, rfl⟩
      rcases List.mem_map.mp hq with ⟨a, ha, rfl⟩
      have : (0 : ℚ) ≤ a + 1 / 100 := by
        have := hπ a ha
        linarith
      exact div_nonneg this hpos.le
    · rw [sum_map_div, div_self hpos.ne.symm]
  · rw [if_neg hs]
    have hnn : ∀ z ∈ List.zipWith (fun p l => p * l) π L, 0 ≤ z :=
      zipWith_mul_nonneg π L hπ hL
    have hsumnn : (0 : ℚ) ≤ (List.zipWith (fun p l => p * l) π L).sum :=
      List.sum_nonneg hnn
    constructor
    · intro p hp
      rcases List.mem_map.mp hp with ⟨q, hq, rfl⟩
      exact div_nonneg (hnn q hq) hsumnn
    · rw [sum_map_div, div_self hs]

/-- C7 witness: a concrete two-character update, posterior one half and one
half, likelihood weights 1 and one half, sums to 1 after normalization. -/
theorem posterior_update_normalized_witness :
    (updatePosterior [1 / 2, 1 / 2] [1, 1 / 2]).sum = 1 :=
  (posterior_update_normalized [1 / 2, 1 / 2] [1, 1 / 2]
    (by norm_num) (by norm_num) (by norm_num)).2
